import Mathlib

/-!
Verification of the mister_ed adversarial-training core: a shallow embedding of
src/adversarial_training.py and src/adversarial_attacks_refactor.py, followed by
theorems settling the spec's claims about the attack engine, the attack-parameter
wrapper, the training loop and the evaluation loop.

Conventions of the embedding:
* tensors are Lean lists (batch dimension = list index); rationals stand for the
  float scalars, with exact arithmetic;
* the ambient Python RNG is passed explicitly: the result of
  random.sample(range(n), k) becomes an explicit argument, and the random
  initialization of a perturbation consumes an explicit seed;
* fallible Python code (statements that raise) returns Except/Option;
* external collaborators (perturbation, loss function, optimizer internals,
  classifier) enter as parameters, modelled from their interface in the spec.
-/

namespace MisterEd

/-! ## Attack-parameter wrapper: subset selection (src/adversarial_training.py) -/

/-- Number of minibatch elements selected for attack:
int(self.proportion_attacked * num_elements), src/adversarial_training.py
lines 93-94.  Python int() truncates toward zero, which on the nonnegative
products arising from a proportion in [0, 1] coincides with the floor. -/
def numAttacked (p : ℚ) (n : ℕ) : ℕ := (⌊p * n⌋).toNat

/-- Contract of Python random.sample(range(n), k) (standard library, external
to this repository): it returns k distinct elements of range(n). -/
def SampleValid (n k : ℕ) (s : List ℕ) : Prop :=
  s.Nodup ∧ (∀ x ∈ s, x < n) ∧ s.length = k

instance instDecidableSampleValid (n k : ℕ) (s : List ℕ) :
    Decidable (SampleValid n k s) := by
  unfold SampleValid; infer_instance

/-- Embedding of sorted(random.sample(...)) at src/adversarial_training.py
lines 93-94: the drawn sample, sorted ascending. -/
def selectedIdxs (drawn : List ℕ) : List ℕ := List.insertionSort (· ≤ ·) drawn

/-- Embedding of torch Tensor.index_select(0, idxs): the rows named by idxs,
in the order of idxs, gathered into a fresh tensor. -/
def indexSelect (l : List α) (idxs : List ℕ) : List α :=
  idxs.filterMap (fun i => l[i]?)

/-- AdversarialAttackParameters (src/adversarial_training.py lines 25-62):
binds one attack engine to the proportion of each minibatch to attack.
advAttack is the input-output behaviour of
self.output_filter(self.adv_attack_obj.attack(...)); for the FGSM/BIM/LInfPGD
branch of the constructor the output filter is the identity. -/
structure AdversarialAttackParameters (α β : Type) where
  advAttack : List α → List β → List α
  proportion_attacked : ℚ

/-- Embedding of AdversarialAttackParameters.attack (src/adversarial_training.py
lines 74-109).  drawnFor n k stands for the ambient random.sample(range(n), k)
draw.  Returns none for the sentinel triple (None, None, None) produced when
the selection is empty (lines 99-100), and otherwise
some (adv_examples, pre_adv_labels, selected_idxs) (line 109). -/
def AdversarialAttackParameters.attack (ps : AdversarialAttackParameters α β)
    (inputs : List α) (labels : List β) (drawnFor : ℕ → ℕ → List ℕ) :
    Option (List α × List β × List ℕ) :=
  let num_elements := inputs.length
  let selected_idxs :=
    selectedIdxs (drawnFor num_elements (numAttacked ps.proportion_attacked num_elements))
  if selected_idxs.length = 0 then none
  else
    let adv_inputs := indexSelect inputs selected_idxs
    let pre_adv_labels := indexSelect labels selected_idxs
    let adv_examples := ps.advAttack adv_inputs pre_adv_labels
    some (adv_examples, pre_adv_labels, selected_idxs)

/-- Embedding of AdversarialTraining._attack_subroutine
(src/adversarial_training.py lines 222-263).  With attack_parameters = None the
clean minibatch passes through unchanged (lines 245-246).  Otherwise the attack
wrapper runs; when it returns the empty sentinel (None, None, None), the
unconditional torch.cat([inputs, adv_inputs], dim=0) at line 261 receives None
and raises a TypeError (if the adversarial-accuracy printout fires first,
attack_parameters.eval at line 254 raises on the None index tensor instead), so
the call errors either way; when it returns real data, the adversarial
examples and labels are appended to the clean minibatch (lines 261-263). -/
def attack_subroutine (attack_parameters : Option (AdversarialAttackParameters α β))
    (inputs : List α) (labels : List β) (drawnFor : ℕ → ℕ → List ℕ) :
    Except String (List α × List β) :=
  match attack_parameters with
  | none => Except.ok (inputs, labels)
  | some ps =>
    match ps.attack inputs labels drawnFor with
    | none => Except.error "TypeError: cat received an invalid combination of arguments (NoneType)"
    | some (adv_inputs, adv_labels, _) =>
      Except.ok (inputs ++ adv_inputs, labels ++ adv_labels)

/-! ## Training loop (src/adversarial_training.py, AdversarialTraining.train) -/

/-- Embedding of one minibatch of the AdversarialTraining.train loop
(src/adversarial_training.py lines 326-350): run the attack subroutine, then
take one standard supervised optimizer step on the (possibly augmented)
minibatch.  The classifier together with its optimizer state is an abstract γ,
and optStep is the normalize/forward/loss/backward/optimizer-step composite of
lines 339-350, which is external to the claims about the loop's control flow. -/
def trainMinibatch (attack_parameters : Option (AdversarialAttackParameters α β))
    (drawnFor : ℕ → ℕ → List ℕ) (optStep : γ → List α → List β → γ)
    (cls : γ) (mb : List α × List β) : Except String γ :=
  match attack_subroutine attack_parameters mb.1 mb.2 drawnFor with
  | Except.error e => Except.error e
  | Except.ok (inputs, labels) => Except.ok (optStep cls inputs labels)

/-- Embedding of AdversarialTraining.train (src/adversarial_training.py lines
266-372), restricted to the control flow the claims observe and to the
use_gpu = False path.  The setup block (lines 293-306) validates the arguments
and then executes attack_parameters.set_gpu(use_gpu) at line 306
unconditionally — outside the `if attack_parameters is not None` guard of lines
296-300 — so when attack_parameters is None the attribute access raises an
AttributeError before any epoch runs.  Otherwise the loop runs num_epochs
epochs over the data, each minibatch doing attack augmentation plus one
optimizer step (checkpointing and printouts carry no training state). -/
def AdversarialTraining.train
    (attack_parameters : Option (AdversarialAttackParameters α β))
    (num_epochs : ℕ) (data : List (List α × List β))
    (drawnFor : ℕ → ℕ → List ℕ) (optStep : γ → List α → List β → γ)
    (cls : γ) : Except String γ :=
  match attack_parameters with
  | none => Except.error "AttributeError: NoneType object has no attribute set_gpu"
  | some ps =>
    (List.range num_epochs).foldlM
      (fun c _ => data.foldlM (trainMinibatch (some ps) drawnFor optStep) c) cls

/-! ## Evaluation loop accumulation (src/adversarial_training.py, evaluate) -/

/-- Modelled from the spec: RunningAverage (utils.AverageMeter, a utility module
of this repository that is not under src/) accumulates a weighted mean over
(value, count) observations: update(val, n) adds val*n to the running sum and n
to the running count, and avg is sum/count (spec section 3 and section 8). -/
structure AverageMeter where
  sum : ℚ
  count : ℕ
  deriving DecidableEq

/-- Update of the running meter with value val carrying weight n. -/
def AverageMeter.update (m : AverageMeter) (val : ℚ) (n : ℕ) : AverageMeter :=
  AverageMeter.mk (m.sum + val * n) (m.count + n)

/-- Weighted average held by the meter (0 when empty, since ℚ division by zero
is zero). -/
def AverageMeter.avg (m : AverageMeter) : ℚ := m.sum / m.count

/-- Embedding of the per-attack accumulation in AdversarialEvaluation.evaluate
(src/adversarial_training.py lines 468-474): the code updates the attack's
meter with value attack_accuracy_int / minibatch and weight n = int(minibatch),
where minibatch = float(len(inputs)) is the FULL minibatch size (line 447), not
the size of the attacked subset. -/
def evaluateAttackUpdate (m : AverageMeter) (attack_accuracy_int minibatch : ℕ) :
    AverageMeter :=
  m.update ((attack_accuracy_int : ℚ) / (minibatch : ℚ)) minibatch

/-- Statement of the claim's accumulation, written from the spec's words for
comparison: accuracy of the attack's output over the attacked subset, weighted
by the size of that subset. -/
def claimedAttackUpdate (m : AverageMeter) (attack_accuracy_int subsetSize : ℕ) :
    AverageMeter :=
  m.update ((attack_accuracy_int : ℚ) / (subsetSize : ℚ)) subsetSize

/-- Folding the per-minibatch accumulation of evaluate over an evaluation pass:
obs lists, for one named attack, the pair (attack_accuracy_int, minibatch size)
of each processed minibatch, and the meter starts fresh (line 418). -/
def evaluateAttackLoop (obs : List (ℕ × ℕ)) : AverageMeter :=
  obs.foldl (fun m o => evaluateAttackUpdate m o.1 o.2) (AverageMeter.mk 0 0)

/-! ## Attack engine (src/adversarial_attacks_refactor.py, FGSM and PGD)

The engine is embedded as explicit state passing over the interfaces of its
external collaborators (spec section 6): the perturbation capability set, the
loss-function setup/forward/cleanup pair, and the torch Adam optimizer.  Each
interface call also appends an event to a log, so that call counts and call
order ("back-propagates once", "only a final gradient clear") are provable. -/

/-- Events recorded by the attack engine, one per external interface call. -/
inductive AttackEvent where
  | modeSwitch      : AttackEvent
  | setupBatch      : AttackEvent
  | backward        : AttackEvent
  | updateParams    : AttackEvent
  | zeroGrad        : AttackEvent
  | adamStep        : AttackEvent
  | randomInit      : AttackEvent
  | cleanupBatch    : AttackEvent
  | attachOriginals : AttackEvent
  deriving DecidableEq

/-- Modelled from the spec: the Perturbation capability set (spec sections 2
and 6; the perturbation geometries live in adversarial_perturbations.py, which
is external to src/).  params are its learnable parameters, grad the gradient
buffer that backward accumulates into and zero_grad clears, and originals the
batch recorded by attach_originals. -/
structure Pert (P B : Type) where
  params : P
  grad : P
  originals : Option B
  deriving DecidableEq

/-- Modelled from the spec: the environment of external collaborators of the
attack engine (spec section 6).  initParams is the ThreatModel factory applied
to a reference batch; gradAt p ex lab is the gradient, with respect to the
perturbation parameters at value p, of loss_fxn.forward(perturbation(ex), lab)
with the loss reference state fixed to ex; addP is the parameter update
discipline params += delta of update_params and of gradient accumulation;
signP/smulP are torch.sign and scalar multiplication; applyPert p ex is
perturbation(ex) at parameter value p; randomInitP consumes an explicit RNG
seed; adamInit/adamStep are the state of the fresh
optim.Adam(perturbation.parameters(), lr=0.0005) and its step. -/
structure AttackEnv (P B L R A : Type) where
  initParams : B → P
  zeroGradVal : P
  gradAt : P → B → L → P
  addP : P → P → P
  signP : P → P
  smulP : ℚ → P → P
  applyPert : P → B → B
  randomInitP : P → R → P
  adamInit : A
  adamStep : A → P → P → P × A

/-- Full state threaded through an attack call: the perturbation being built,
the loss function's fixed reference batch (none = released), the Adam optimizer
state once constructed, and the log of interface calls made so far. -/
structure AttackState (P B A : Type) where
  pert : Pert P B
  lossRef : Option B
  adam : Option A
  log : List AttackEvent

/-- Fresh perturbation produced by threat_model(examples): parameters from the
factory, empty gradient buffer, no originals attached yet. -/
def freshPert (env : AttackEnv P B L R A) (examples : B) : Pert P B :=
  Pert.mk (env.initParams examples) env.zeroGradVal none

/-- Initial attack state: classifier_net.eval() recorded, perturbation fresh,
no loss reference fixed, no optimizer constructed. -/
def startState (env : AttackEnv P B L R A) (examples : B) : AttackState P B A :=
  AttackState.mk (freshPert env examples) none none [AttackEvent.modeSwitch]

/-- loss_fxn.setup_attack_batch(var_examples): fixes the reference batch. -/
def setupBatchOp (examples : B) (s : AttackState P B A) : AttackState P B A :=
  AttackState.mk s.pert (some examples) s.adam (s.log ++ [AttackEvent.setupBatch])

/-- One loss forward plus torch.autograd.backward(loss): accumulates the
gradient at the current parameters into the gradient buffer. -/
def backwardOp (env : AttackEnv P B L R A) (examples : B) (labels : L)
    (s : AttackState P B A) : AttackState P B A :=
  AttackState.mk
    (Pert.mk s.pert.params
      (env.addP s.pert.grad (env.gradAt s.pert.params examples labels))
      s.pert.originals)
    s.lossRef s.adam (s.log ++ [AttackEvent.backward])

/-- perturbation.update_params(update_fxn): adds update_fxn(grad) to every
parameter. -/
def updateParamsOp (env : AttackEnv P B L R A) (f : P → P)
    (s : AttackState P B A) : AttackState P B A :=
  AttackState.mk
    (Pert.mk (env.addP s.pert.params (f s.pert.grad)) s.pert.grad s.pert.originals)
    s.lossRef s.adam (s.log ++ [AttackEvent.updateParams])

/-- perturbation.zero_grad(): clears the gradient buffer. -/
def zeroGradOp (env : AttackEnv P B L R A) (s : AttackState P B A) :
    AttackState P B A :=
  AttackState.mk (Pert.mk s.pert.params env.zeroGradVal s.pert.originals)
    s.lossRef s.adam (s.log ++ [AttackEvent.zeroGrad])

/-- optimizer.step() of the per-attack Adam: consumes the current gradient and
optimizer state, produces new parameters and optimizer state. -/
def adamStepOp (env : AttackEnv P B L R A) (s : AttackState P B A) :
    AttackState P B A :=
  match s.adam with
  | none => s
  | some a =>
    let r := env.adamStep a s.pert.params s.pert.grad
    AttackState.mk (Pert.mk r.1 s.pert.grad s.pert.originals)
      s.lossRef (some r.2) (s.log ++ [AttackEvent.adamStep])

/-- perturbation.random_init(): randomizes the parameters within the feasible
region, consuming the explicit RNG seed. -/
def randomInitOp (env : AttackEnv P B L R A) (seed : R)
    (s : AttackState P B A) : AttackState P B A :=
  AttackState.mk (Pert.mk (env.randomInitP s.pert.params seed) s.pert.grad s.pert.originals)
    s.lossRef s.adam (s.log ++ [AttackEvent.randomInit])

/-- loss_fxn.cleanup_attack_batch(): releases the fixed reference batch. -/
def cleanupBatchOp (s : AttackState P B A) : AttackState P B A :=
  AttackState.mk s.pert none s.adam (s.log ++ [AttackEvent.cleanupBatch])

/-- perturbation.attach_originals(examples): records the un-perturbed batch. -/
def attachOriginalsOp (examples : B) (s : AttackState P B A) : AttackState P B A :=
  AttackState.mk (Pert.mk s.pert.params s.pert.grad (some examples))
    s.lossRef s.adam (s.log ++ [AttackEvent.attachOriginals])

/-- Embedding of FGSM.attack (src/adversarial_attacks_refactor.py lines
174-227): classifier to eval mode, fresh perturbation from the threat model,
fix the loss reference to the clean batch, one forward/backward, update every
parameter by step_size * sign(grad), release the reference, attach the
originals, return the perturbation.  The validation printout carries no
state. -/
def FGSM.attack (env : AttackEnv P B L R A) (examples : B) (labels : L)
    (step_size : ℚ) : AttackState P B A :=
  let s0 := startState env examples
  let s1 := setupBatchOp examples s0
  let s2 := backwardOp env examples labels s1
  let s3 := updateParamsOp env (fun g => env.smulP step_size (env.signP g)) s2
  let s4 := cleanupBatchOp s3
  attachOriginalsOp examples s4

/-- One iteration of the PGD loop (src/adversarial_attacks_refactor.py lines
309-320): zero_grad, forward/backward, then either the sign-step update or the
Adam optimizer step, selected by the signed flag. -/
def pgdIter (env : AttackEnv P B L R A) (examples : B) (labels : L)
    (step_size : ℚ) (signed : Bool) (s : AttackState P B A) : AttackState P B A :=
  let s1 := zeroGradOp env s
  let s2 := backwardOp env examples labels s1
  if signed then updateParamsOp env (fun g => env.smulP step_size (env.signP g)) s2
  else adamStepOp env s2

/-- The PGD iteration loop, n sequential iterations. -/
def pgdLoop (env : AttackEnv P B L R A) (examples : B) (labels : L)
    (step_size : ℚ) (signed : Bool) : ℕ → AttackState P B A → AttackState P B A
  | 0, s => s
  | n + 1, s => pgdLoop env examples labels step_size signed n
      (pgdIter env examples labels step_size signed s)

/-- Embedding of PGD.attack (src/adversarial_attacks_refactor.py lines
247-325): classifier to eval mode, fresh perturbation, fix the loss reference,
optional random initialization, construct a fresh Adam over the perturbation's
parameters, run num_iterations iterations, then a final zero_grad, release the
reference, attach the originals, return the perturbation. -/
def PGD.attack (env : AttackEnv P B L R A) (examples : B) (labels : L)
    (step_size : ℚ) (num_iterations : ℕ) (random_init : Bool) (signed : Bool)
    (seed : R) : AttackState P B A :=
  let s0 := startState env examples
  let s1 := setupBatchOp examples s0
  let s2 := if random_init then randomInitOp env seed s1 else s1
  let s3 := AttackState.mk s2.pert s2.lossRef (some env.adamInit) s2.log
  let s4 := pgdLoop env examples labels step_size signed num_iterations s3
  let s5 := zeroGradOp env s4
  let s6 := cleanupBatchOp s5
  attachOriginalsOp examples s6

/-- Concrete instantiation of the external environment over rational scalars,
used to evaluate the engine's theorems at concrete inputs. -/
def testEnv : AttackEnv ℚ ℚ ℚ ℚ ℚ :=
  AttackEnv.mk (fun b => b) 0 (fun p b l => p + b + l) (· + ·)
    (fun x => if x < 0 then -1 else if x = 0 then 0 else 1) (· * ·)
    (· + ·) (fun _ r => r) 0 (fun a p g => (p + g + a, a + 1))

/-! ## Optimizer/parameter separation (claim C9)

The classifier's weights and the perturbation's parameters are disjoint
families, addressed through a common heap.  A first-order optimizer is
constructed over a list of parameter ids and its step rewrites exactly those
ids — this is the torch.optim contract (external), modelled from spec sections
4.1, 4.3 and 5.  The two constructions in the source are
optim.Adam(self.classifier_net.parameters(), lr=0.001) at
src/adversarial_training.py line 317 and
optim.Adam(perturbation.parameters(), lr=0.0005) at
src/adversarial_attacks_refactor.py line 305. -/

/-- Identifier of one learnable parameter: either a classifier weight or a
perturbation parameter. -/
inductive ParamId where
  | cls : ℕ → ParamId
  | pert : ℕ → ParamId
  deriving DecidableEq

/-- The heap of all learnable scalar parameters. -/
def ParamHeap : Type := ParamId → ℚ

/-- Modelled from the spec: a first-order optimizer step over the ids it was
constructed with — it rewrites exactly those parameters, via some per-parameter
update upd (which may read the old value), and leaves every other parameter
untouched (torch.optim contract, external to the repository). -/
def optimStepOn (ids : List ParamId) (upd : ParamId → ℚ → ℚ) (h : ParamHeap) :
    ParamHeap :=
  fun i => if i ∈ ids then upd i (h i) else h i

/-- The outer training optimizer's step: constructed over exactly the
classifier's parameters (src/adversarial_training.py line 317). -/
def outerOptimizerStep (clsIds : List ℕ) (upd : ParamId → ℚ → ℚ)
    (h : ParamHeap) : ParamHeap :=
  optimStepOn (clsIds.map ParamId.cls) upd h

/-- The per-attack optimizer's step: constructed over exactly the
perturbation's parameters (src/adversarial_attacks_refactor.py line 305). -/
def attackOptimizerStep (pertIds : List ℕ) (upd : ParamId → ℚ → ℚ)
    (h : ParamHeap) : ParamHeap :=
  optimStepOn (pertIds.map ParamId.pert) upd h

/-- Index carried by a perturbation parameter id (0 for classifier ids, which
the guard in signUpdateStep never passes). -/
def pertIndexOf : ParamId → ℕ
  | ParamId.cls _ => 0
  | ParamId.pert j => j

/-- perturbation.update_params on the heap: the sign-step path of the PGD loop
(src/adversarial_attacks_refactor.py lines 306 and 314-315) adds a delta to
every perturbation parameter and touches nothing else. -/
def signUpdateStep (pertIds : List ℕ) (delta : ℕ → ℚ) (h : ParamHeap) :
    ParamHeap :=
  fun i => if i ∈ pertIds.map ParamId.pert then h i + delta (pertIndexOf i) else h i

/-- One PGD iteration on the heap: the parameter write of iteration lines
314-317, either the sign-step update or the per-attack optimizer step. -/
def pgdIterH (pertIds : List ℕ) (signed : Bool) (delta : ℕ → ℚ)
    (upd : ParamId → ℚ → ℚ) (h : ParamHeap) : ParamHeap :=
  if signed then signUpdateStep pertIds delta h
  else attackOptimizerStep pertIds upd h

/-- The num_iterations-fold attack phase on the heap (the loop at
src/adversarial_attacks_refactor.py lines 309-320); delta and upd may vary per
iteration with the evolving gradients, so they take the iteration number. -/
def pgdPhaseH (pertIds : List ℕ) (signed : Bool) (delta : ℕ → ℕ → ℚ)
    (upd : ℕ → ParamId → ℚ → ℚ) : ℕ → ParamHeap → ParamHeap
  | 0, h => h
  | n + 1, h => pgdPhaseH pertIds signed delta upd n
      (pgdIterH pertIds signed (delta n) (upd n) h)

/-- One training minibatch on the heap (src/adversarial_training.py lines
326-350): the attack phase builds adversarial examples, then the outer
optimizer takes one step. -/
def trainMinibatchH (clsIds pertIds : List ℕ) (signed : Bool) (n : ℕ)
    (delta : ℕ → ℕ → ℚ) (updAtk : ℕ → ParamId → ℚ → ℚ)
    (updOuter : ParamId → ℚ → ℚ) (h : ParamHeap) : ParamHeap :=
  outerOptimizerStep clsIds updOuter (pgdPhaseH pertIds signed delta updAtk n h)

/-! ## Tensor identity and frame effects (claim C10)

Tensor-level embedding: a store of allocated tensors, where every tensor-valued
torch operation the wrapper and the subroutine perform — Tensor.new,
index_select, the attack engine's output, torch.cat — allocates a fresh cell
and never writes an existing one. -/

/-- Value in one store cell: an image batch, a label batch, or an index
tensor. -/
inductive TVal (ι κ : Type) where
  | img : List ι → TVal ι κ
  | lbl : List κ → TVal ι κ
  | idx : List ℕ → TVal ι κ

/-- The tensor store: cell i holds the i-th allocated tensor. -/
structure TensorStore (τ : Type) where
  mem : List τ

/-- Allocation of a fresh tensor: appends a cell and returns its id. -/
def TensorStore.alloc (s : TensorStore τ) (v : τ) : TensorStore τ × ℕ :=
  (TensorStore.mk (s.mem ++ [v]), s.mem.length)

/-- Dereference of a tensor id. -/
def TensorStore.read (s : TensorStore τ) (i : ℕ) : Option τ := s.mem[i]?

/-- Store evolution by pure allocation: every pre-existing cell survives
unchanged. -/
def TensorStore.Extends (s s' : TensorStore τ) : Prop :=
  ∃ t, s'.mem = s.mem ++ t

/-- Embedding of AdversarialAttackParameters.attack at the tensor-store level
(src/adversarial_training.py lines 74-109): read the inputs and labels, build
the sorted index tensor with inputs.new(selected_idxs).long() (an allocation,
line 98), and unless the selection is empty allocate the two index_select
results (lines 102-103) and the attack engine's output batch (lines 105-107).
The clean inputs and labels cells are only read. -/
def attackStore (ps : AdversarialAttackParameters ι κ) (s : TensorStore (TVal ι κ))
    (inputsId labelsId : ℕ) (drawnFor : ℕ → ℕ → List ℕ) :
    TensorStore (TVal ι κ) × Option (ℕ × ℕ × ℕ) :=
  match s.read inputsId, s.read labelsId with
  | some (TVal.img xs), some (TVal.lbl ys) =>
    let sel := selectedIdxs (drawnFor xs.length (numAttacked ps.proportion_attacked xs.length))
    let a1 := s.alloc (TVal.idx sel)
    if sel.length = 0 then (a1.1, none)
    else
      let a2 := a1.1.alloc (TVal.img (indexSelect xs sel))
      let a3 := a2.1.alloc (TVal.lbl (indexSelect ys sel))
      let a4 := a3.1.alloc (TVal.img (ps.advAttack (indexSelect xs sel) (indexSelect ys sel)))
      (a4.1, some (a4.2, a3.2, a1.2))
  | _, _ => (s, none)

/-- Embedding of AdversarialTraining._attack_subroutine at the tensor-store
level (src/adversarial_training.py lines 222-263): with no attack bound the
clean tensors pass through by id; otherwise torch.cat allocates the two
augmented tensors (lines 261-262) — or, on the empty sentinel, raises (result
none) without having written any existing cell. -/
def attackSubroutineStore (ap : Option (AdversarialAttackParameters ι κ))
    (s : TensorStore (TVal ι κ)) (inputsId labelsId : ℕ)
    (drawnFor : ℕ → ℕ → List ℕ) : TensorStore (TVal ι κ) × Option (ℕ × ℕ) :=
  match ap with
  | none => (s, some (inputsId, labelsId))
  | some ps =>
    let r := attackStore ps s inputsId labelsId drawnFor
    match r.2 with
    | none => (r.1, none)
    | some (advId, advLabId, _) =>
      match r.1.read inputsId, r.1.read advId, r.1.read labelsId, r.1.read advLabId with
      | some (TVal.img xs), some (TVal.img axs), some (TVal.lbl ys), some (TVal.lbl ays) =>
        let c1 := r.1.alloc (TVal.img (xs ++ axs))
        let c2 := c1.1.alloc (TVal.lbl (ys ++ ays))
        (c2.1, some (c1.2, c2.2))
      | _, _, _, _ => (r.1, none)

/-! ## Concrete instances for evaluating the theorems at concrete inputs -/

/-- Concrete wrapper binding: the identity attack engine bound with
proportion_attacked = 1/2. -/
def halfParams : AdversarialAttackParameters ℕ ℕ :=
  AdversarialAttackParameters.mk (fun a _ => a) (1 / 2)

/-- Deterministic stand-in for the random.sample(range(n), k) draw at concrete
inputs: the first k indices. -/
def firstKDraw : ℕ → ℕ → List ℕ := fun _ k => List.range k

/-- Concrete out-of-order sample draw, to exercise the sorting. -/
def witnessDraw : ℕ → ℕ → List ℕ := fun _ _ => [3, 0]

/-- Concrete two-cell tensor store: an image batch at id 0, labels at id 1. -/
def witnessStore : TensorStore (TVal ℕ ℕ) :=
  TensorStore.mk [TVal.img [5, 6], TVal.lbl [8, 9]]

/-! ## Theorems -/

/-- Claim C5: the single-step sign attack fixes the loss reference state to the
clean batch, computes the loss on the perturbed batch, back-propagates exactly
once, updates every perturbation parameter by step_size × sign(gradient),
releases the reference state, attaches the original batch to the perturbation,
and returns that perturbation.  The call log records exactly one backward and
one parameter update, in the order mode-switch, setup, backward, update,
cleanup, attach; the final parameters are the fresh parameters plus
step_size × sign of the gradient accumulated into the empty gradient buffer;
the loss reference is released and the originals attached. -/
theorem fgsm_single_step_spec (env : AttackEnv P B L R A) (examples : B)
    (labels : L) (step_size : ℚ) :
    (FGSM.attack env examples labels step_size).log
      = [AttackEvent.modeSwitch, AttackEvent.setupBatch, AttackEvent.backward,
         AttackEvent.updateParams, AttackEvent.cleanupBatch, AttackEvent.attachOriginals]
    ∧ (FGSM.attack env examples labels step_size).pert.params
      = env.addP (env.initParams examples)
          (env.smulP step_size (env.signP (env.addP env.zeroGradVal
            (env.gradAt (env.initParams examples) examples labels))))
    ∧ (FGSM.attack env examples labels step_size).lossRef = none
    ∧ (FGSM.attack env examples labels step_size).pert.originals = some examples :=
  ⟨rfl, rfl, rfl, rfl⟩

/-- Claim C4: the multi-step attack with signed = true and exactly one
iteration (num_iterations = 1, random_init = false) produces a perturbation
whose parameters, and hence whose applied output, are identical to the
single-step sign attack's, given identical step_size, examples, labels, and
initial perturbation state (both start from the threat model's fresh
perturbation for the same examples). -/
theorem pgd_one_step_signed_eq_fgsm (env : AttackEnv P B L R A) (examples : B)
    (labels : L) (step_size : ℚ) (seed : R) :
    (PGD.attack env examples labels step_size 1 false true seed).pert.params
      = (FGSM.attack env examples labels step_size).pert.params
    ∧ env.applyPert
        (PGD.attack env examples labels step_size 1 false true seed).pert.params examples
      = env.applyPert (FGSM.attack env examples labels step_size).pert.params examples
    ∧ (PGD.attack env examples labels step_size 1 false true seed).pert.originals
      = (FGSM.attack env examples labels step_size).pert.originals :=
  ⟨rfl, rfl, rfl⟩

/-- Claim C6: the multi-step attack called with num_iterations = 0 returns a
perturbation whose parameters equal whatever random initialization (if
requested) or the default construction produced, unmodified by any gradient
step: no backward, parameter update or optimizer step is ever performed, only
a final gradient clear is applied, the loss reference state is released, and
the originals are attached. -/
theorem pgd_zero_iterations_spec (env : AttackEnv P B L R A) (examples : B)
    (labels : L) (step_size : ℚ) (random_init signed : Bool) (seed : R) :
    (PGD.attack env examples labels step_size 0 random_init signed seed).pert.params
      = (if random_init then env.randomInitP (env.initParams examples) seed
         else env.initParams examples)
    ∧ (PGD.attack env examples labels step_size 0 random_init signed seed).pert.grad
      = env.zeroGradVal
    ∧ (PGD.attack env examples labels step_size 0 random_init signed seed).lossRef = none
    ∧ (PGD.attack env examples labels step_size 0 random_init signed seed).pert.originals
      = some examples
    ∧ AttackEvent.backward ∉ (PGD.attack env examples labels step_size 0 random_init signed seed).log
    ∧ AttackEvent.updateParams ∉ (PGD.attack env examples labels step_size 0 random_init signed seed).log
    ∧ AttackEvent.adamStep ∉ (PGD.attack env examples labels step_size 0 random_init signed seed).log := by
  cases random_init
  · exact ⟨rfl, rfl, rfl, rfl,
      (by decide : AttackEvent.backward ∉ [AttackEvent.modeSwitch, AttackEvent.setupBatch,
        AttackEvent.zeroGrad, AttackEvent.cleanupBatch, AttackEvent.attachOriginals]),
      (by decide : AttackEvent.updateParams ∉ [AttackEvent.modeSwitch, AttackEvent.setupBatch,
        AttackEvent.zeroGrad, AttackEvent.cleanupBatch, AttackEvent.attachOriginals]),
      (by decide : AttackEvent.adamStep ∉ [AttackEvent.modeSwitch, AttackEvent.setupBatch,
        AttackEvent.zeroGrad, AttackEvent.cleanupBatch, AttackEvent.attachOriginals])⟩
  · exact ⟨rfl, rfl, rfl, rfl,
      (by decide : AttackEvent.backward ∉ [AttackEvent.modeSwitch, AttackEvent.setupBatch,
        AttackEvent.randomInit, AttackEvent.zeroGrad, AttackEvent.cleanupBatch,
        AttackEvent.attachOriginals]),
      (by decide : AttackEvent.updateParams ∉ [AttackEvent.modeSwitch, AttackEvent.setupBatch,
        AttackEvent.randomInit, AttackEvent.zeroGrad, AttackEvent.cleanupBatch,
        AttackEvent.attachOriginals]),
      (by decide : AttackEvent.adamStep ∉ [AttackEvent.modeSwitch, AttackEvent.setupBatch,
        AttackEvent.randomInit, AttackEvent.zeroGrad, AttackEvent.cleanupBatch,
        AttackEvent.attachOriginals])⟩

/-- Witness for pgd_zero_iterations_spec at a concrete environment: with
random initialization requested the returned parameters are the seed written
by testEnv's randomInitP, and no backward event was logged. -/
theorem pgd_zero_iterations_spec_witness :
    (PGD.attack testEnv 2 3 5 0 true false 9).pert.params = 9
    ∧ AttackEvent.backward ∉ (PGD.attack testEnv 2 3 5 0 true false 9).log := by
  obtain ⟨h1, _, _, _, h5, _, _⟩ :=
    pgd_zero_iterations_spec testEnv (2 : ℚ) (3 : ℚ) 5 true false (9 : ℚ)
  exact ⟨h1.trans rfl, h5⟩

/-- Claim C8: the multi-step attack with random_init = false is deterministic:
the RNG seed is consumed only by the random-initialization branch, so for a
fixed environment (classifier, threat model, loss), fixed inputs and fixed
labels, two calls with identical arguments but different ambient RNG states
produce identical results — identical perturbation parameters included. -/
theorem pgd_no_random_init_deterministic (env : AttackEnv P B L R A)
    (examples : B) (labels : L) (step_size : ℚ) (num_iterations : ℕ)
    (signed : Bool) (seed1 seed2 : R) :
    PGD.attack env examples labels step_size num_iterations false signed seed1
      = PGD.attack env examples labels step_size num_iterations false signed seed2 :=
  rfl

/-- Claim C7 (code_bug): calling AdversarialTraining.train with
attack_parameters = None does not perform plain non-adversarial training —
line 306 of src/adversarial_training.py executes
attack_parameters.set_gpu(use_gpu) outside the None guard, so the call raises
an AttributeError before the first epoch.  The attack subroutine itself would
have passed the clean minibatch through unchanged, as the claim describes. -/
theorem train_none_attack_parameters_crashes (num_epochs : ℕ)
    (data : List (List α × List β)) (drawnFor : ℕ → ℕ → List ℕ)
    (optStep : γ → List α → List β → γ) (cls : γ)
    (inputs : List α) (labels : List β) :
    AdversarialTraining.train none num_epochs data drawnFor optStep cls
      = Except.error "AttributeError: NoneType object has no attribute set_gpu"
    ∧ attack_subroutine none inputs labels drawnFor = Except.ok (inputs, labels) :=
  ⟨rfl, rfl⟩

/-- Claim C1 (code_bug): on a minibatch where floor(proportion × batch size)
is zero the wrapper does return the sentinel triple, but the training loop's
attack subroutine does not proceed with the clean batch: the unconditional
torch.cat at src/adversarial_training.py line 261 receives the sentinel's None
and raises.  Evaluated here at proportion 1/2 on a one-element minibatch. -/
theorem attack_subroutine_crashes_on_empty_selection :
    halfParams.attack [5] [7] firstKDraw = none
    ∧ attack_subroutine (some halfParams) [5] [7] firstKDraw
      = Except.error "TypeError: cat received an invalid combination of arguments (NoneType)" := by
  have hk : numAttacked ((2 : ℚ)⁻¹) 1 = 0 := by
    norm_num [numAttacked, Int.toNat_ofNat]
  have h1 : halfParams.attack [5] [7] firstKDraw = none := by
    simp [AdversarialAttackParameters.attack, halfParams, firstKDraw, hk, selectedIdxs]
  exact ⟨h1, by simp [attack_subroutine, h1]⟩

/-- Counterexample to claim C2: on a minibatch of 2 examples with
proportion_attacked = 1/2 the attacked subset has size 1; with the one
adversarial example classified correctly (attack_accuracy_int = 1), the
evaluate loop accumulates value 1/2 with weight 2 — not the subset accuracy 1
with weight 1 that the claim states — so the resulting running averages
differ (1/2 versus 1). -/
theorem evaluate_weighting_counterexample :
    numAttacked (1 / 2) 2 = 1
    ∧ evaluateAttackUpdate (AverageMeter.mk 0 0) 1 2
        ≠ claimedAttackUpdate (AverageMeter.mk 0 0) 1 (numAttacked (1 / 2) 2)
    ∧ (evaluateAttackUpdate (AverageMeter.mk 0 0) 1 2).avg = 1 / 2
    ∧ (claimedAttackUpdate (AverageMeter.mk 0 0) 1 (numAttacked (1 / 2) 2)).avg = 1 := by
  have hk : numAttacked ((1 : ℚ) / 2) 2 = 1 := by
    norm_num [numAttacked, Int.toNat_ofNat]
  refine ⟨hk, ?_, ?_, ?_⟩
  · rw [hk]
    intro h
    have hc := congrArg AverageMeter.count h
    simp [evaluateAttackUpdate, claimedAttackUpdate, AverageMeter.update] at hc
  · norm_num [evaluateAttackUpdate, AverageMeter.update, AverageMeter.avg]
  · rw [hk]
    norm_num [claimedAttackUpdate, AverageMeter.update, AverageMeter.avg]

/-- Auxiliary: folding the evaluate accumulation over minibatches adds the
correct counts to the running sum and the full minibatch sizes to the running
count, provided every minibatch is nonempty. -/
theorem evaluateAttackLoop_fold (obs : List (ℕ × ℕ)) (m : AverageMeter)
    (hpos : ∀ o ∈ obs, 0 < o.2) :
    (obs.foldl (fun m o => evaluateAttackUpdate m o.1 o.2) m).sum
        = m.sum + (obs.map (fun o => (o.1 : ℚ))).sum
    ∧ (obs.foldl (fun m o => evaluateAttackUpdate m o.1 o.2) m).count
        = m.count + (obs.map (fun o => o.2)).sum := by
  induction obs generalizing m with
  | nil => simp
  | cons o t ih =>
    have hn : ((o.2 : ℚ)) ≠ 0 := by
      have h0 := hpos o (List.mem_cons_self o t)
      exact_mod_cast h0.ne'
    have ht : ∀ x ∈ t, 0 < x.2 := fun x hx => hpos x (List.mem_cons_of_mem o hx)
    obtain ⟨ih1, ih2⟩ := ih (evaluateAttackUpdate m o.1 o.2) ht
    constructor
    · rw [List.foldl_cons, ih1]
      simp [evaluateAttackUpdate, AverageMeter.update, div_mul_cancel₀ _ hn]
      ring
    · rw [List.foldl_cons, ih2]
      simp [evaluateAttackUpdate, AverageMeter.update]
      omega

/-- Claim C2 amended: for every minibatch and named attack, the evaluate loop
accumulates the attack's correct-count divided by the FULL minibatch size,
weighted by the full minibatch size (src/adversarial_training.py lines 447 and
468-474); consequently, over an evaluation pass of nonempty minibatches, the
attack's final running average equals the total adversarial correct-count
divided by the total number of examples processed — not the subset-weighted
subset accuracy the spec states. -/
theorem evaluate_attack_accumulation_fullbatch (obs : List (ℕ × ℕ))
    (hpos : ∀ o ∈ obs, 0 < o.2) :
    (evaluateAttackLoop obs).sum = (obs.map (fun o => (o.1 : ℚ))).sum
    ∧ (evaluateAttackLoop obs).count = (obs.map (fun o => o.2)).sum
    ∧ (evaluateAttackLoop obs).avg
        = (obs.map (fun o => (o.1 : ℚ))).sum / (((obs.map (fun o => o.2)).sum : ℕ) : ℚ) := by
  obtain ⟨h1, h2⟩ := evaluateAttackLoop_fold obs (AverageMeter.mk 0 0) hpos
  have h1' : (evaluateAttackLoop obs).sum = (obs.map (fun o => (o.1 : ℚ))).sum := by
    simpa [evaluateAttackLoop] using h1
  have h2' : (evaluateAttackLoop obs).count = (obs.map (fun o => o.2)).sum := by
    simpa [evaluateAttackLoop] using h2
  exact ⟨h1', h2', by rw [AverageMeter.avg, h1', h2']⟩

/-- Witness for evaluate_attack_accumulation_fullbatch: an evaluation pass of
two minibatches, sizes 2 and 1, with adversarial correct-counts 1 and 0, ends
with running average 1/3. -/
theorem evaluate_attack_accumulation_fullbatch_witness :
    (∀ o ∈ [((1 : ℕ), (2 : ℕ)), (0, 1)], 0 < o.2)
    ∧ (evaluateAttackLoop [(1, 2), (0, 1)]).avg = 1 / 3 := by
  refine ⟨by decide, ?_⟩
  have h := evaluate_attack_accumulation_fullbatch [(1, 2), (0, 1)] (by decide)
  rw [h.2.2]
  norm_num

/-- Claim C3: for a proportion p in [0, 1] and a minibatch of size N, the
wrapper's selection has size exactly floor(p·N), holds no duplicates, and is
sorted ascending; p = 0 always yields the empty sentinel; p = 1 selects every
index of the minibatch exactly once; and any non-sentinel attack result
carries exactly this selection as its index component.  The sample draw is
quantified by the random.sample contract SampleValid. -/
theorem attack_selection_spec (ps : AdversarialAttackParameters α β)
    (inputs : List α) (labels : List β) (drawnFor : ℕ → ℕ → List ℕ)
    (hp0 : 0 ≤ ps.proportion_attacked) (hp1 : ps.proportion_attacked ≤ 1)
    (hdraw : SampleValid inputs.length
      (numAttacked ps.proportion_attacked inputs.length)
      (drawnFor inputs.length (numAttacked ps.proportion_attacked inputs.length))) :
    let N := inputs.length
    let sel := selectedIdxs (drawnFor N (numAttacked ps.proportion_attacked N))
    sel.length = (⌊ps.proportion_attacked * N⌋).toNat
    ∧ sel.Nodup
    ∧ sel.Sorted (· ≤ ·)
    ∧ (ps.proportion_attacked = 0 → ps.attack inputs labels drawnFor = none)
    ∧ (ps.proportion_attacked = 1 → sel = List.range N)
    ∧ (∀ advEx preLabels idxs,
        ps.attack inputs labels drawnFor = some (advEx, preLabels, idxs) → idxs = sel) := by
  intro N sel
  obtain ⟨hnd, hmem, hlen⟩ := hdraw
  have hperm : List.Perm sel (drawnFor N (numAttacked ps.proportion_attacked N)) :=
    List.perm_insertionSort _ _
  have hsellen : sel.length = numAttacked ps.proportion_attacked N :=
    hperm.length_eq.trans hlen
  refine ⟨hsellen, hperm.nodup_iff.mpr hnd, List.sorted_insertionSort _ _, ?_, ?_, ?_⟩
  · intro h0
    have hk : numAttacked ps.proportion_attacked N = 0 := by
      simp [numAttacked, h0]
    have hsl : sel.length = 0 := hsellen.trans hk
    unfold AdversarialAttackParameters.attack
    simp only [hsl]
    simp [hsl]
  · intro h1
    have hk : numAttacked ps.proportion_attacked N = N := by
      simp [numAttacked, h1]
    have hsub : drawnFor N (numAttacked ps.proportion_attacked N) ⊆ List.range N :=
      fun x hx => List.mem_range.mpr (hmem x hx)
    have hsp : List.Subperm (drawnFor N (numAttacked ps.proportion_attacked N))
        (List.range N) := hnd.subperm hsub
    have hpr : List.Perm (drawnFor N (numAttacked ps.proportion_attacked N))
        (List.range N) :=
      hsp.perm_of_length_le (by rw [List.length_range, hlen, hk])
    exact List.eq_of_perm_of_sorted (hperm.trans hpr)
      (List.sorted_insertionSort _ _) ((List.pairwise_lt_range N).imp le_of_lt)
  · intro advEx preLabels idxs hat
    unfold AdversarialAttackParameters.attack at hat
    by_cases hsl : sel.length = 0
    · simp only [hsl] at hat
      simp at hat
    · simp only [if_neg hsl] at hat
      exact (congrArg (fun t => t.2.2) (Option.some.inj hat)).symm

/-- Witness for attack_selection_spec: proportion 1/2 on a minibatch of 4 with
the out-of-order draw [3, 0] satisfies every hypothesis, and the selection is
duplicate-free (sorted to [0, 3] of size floor(1/2 · 4) = 2). -/
theorem attack_selection_spec_witness :
    (0 ≤ halfParams.proportion_attacked
      ∧ halfParams.proportion_attacked ≤ 1
      ∧ SampleValid 4 (numAttacked halfParams.proportion_attacked 4)
          (witnessDraw 4 (numAttacked halfParams.proportion_attacked 4)))
    ∧ (selectedIdxs (witnessDraw 4 (numAttacked halfParams.proportion_attacked 4))).Nodup := by
  have hk : numAttacked halfParams.proportion_attacked 4 = 2 := by
    have h2 : ⌊halfParams.proportion_attacked * (4 : ℚ)⌋ = 2 := by
      norm_num [halfParams]
    simp [numAttacked, h2]
  have hs : SampleValid 4 (numAttacked halfParams.proportion_attacked 4)
      (witnessDraw 4 (numAttacked halfParams.proportion_attacked 4)) := by
    rw [hk]; decide
  refine ⟨⟨by norm_num [halfParams], by norm_num [halfParams], hs⟩, ?_⟩
  have h := attack_selection_spec halfParams [10, 20, 30, 40] [0, 1, 2, 3] witnessDraw
    (by norm_num [halfParams]) (by norm_num [halfParams]) hs
  exact h.2.1

/-- Claim C9: the outer training optimizer is constructed over exactly the
classifier's parameters and its step never changes a perturbation parameter;
the per-attack optimizer inside the multi-step attack is constructed over
exactly the perturbation's parameters and its step — like the sign-step
update — never changes a classifier parameter; the whole num_iterations attack
phase leaves every classifier parameter untouched; and a full training
minibatch changes perturbation parameters only through the attack phase, the
appended outer step contributing nothing to them.  Quantified over every heap,
so the separation holds at every epoch, minibatch and attack iteration. -/
theorem optimizer_parameter_separation (clsIds pertIds : List ℕ)
    (updOuter updAtkOne : ParamId → ℚ → ℚ) (deltaOne : ℕ → ℚ)
    (delta : ℕ → ℕ → ℚ) (updAtk : ℕ → ParamId → ℚ → ℚ) (signed : Bool)
    (n : ℕ) (h : ParamHeap) :
    (∀ j, outerOptimizerStep clsIds updOuter h (ParamId.pert j) = h (ParamId.pert j))
    ∧ (∀ j, attackOptimizerStep pertIds updAtkOne h (ParamId.cls j) = h (ParamId.cls j))
    ∧ (∀ j, signUpdateStep pertIds deltaOne h (ParamId.cls j) = h (ParamId.cls j))
    ∧ (∀ j, pgdPhaseH pertIds signed delta updAtk n h (ParamId.cls j) = h (ParamId.cls j))
    ∧ (∀ j, trainMinibatchH clsIds pertIds signed n delta updAtk updOuter h (ParamId.pert j)
        = pgdPhaseH pertIds signed delta updAtk n h (ParamId.pert j)) := by
  have hpc : ∀ (l : List ℕ) (j : ℕ), ParamId.pert j ∉ l.map ParamId.cls := by
    intro l j hmem
    obtain ⟨a, -, heq⟩ := List.mem_map.mp hmem
    exact ParamId.noConfusion heq
  have hcp : ∀ (l : List ℕ) (j : ℕ), ParamId.cls j ∉ l.map ParamId.pert := by
    intro l j hmem
    obtain ⟨a, -, heq⟩ := List.mem_map.mp hmem
    exact ParamId.noConfusion heq
  have houter : ∀ (u : ParamId → ℚ → ℚ) (hh : ParamHeap) (j : ℕ),
      outerOptimizerStep clsIds u hh (ParamId.pert j) = hh (ParamId.pert j) := by
    intro u hh j
    simp [outerOptimizerStep, optimStepOn, hpc clsIds j]
  have hiter : ∀ (d : ℕ → ℚ) (u : ParamId → ℚ → ℚ) (hh : ParamHeap) (j : ℕ),
      pgdIterH pertIds signed d u hh (ParamId.cls j) = hh (ParamId.cls j) := by
    intro d u hh j
    cases signed <;>
      simp [pgdIterH, signUpdateStep, attackOptimizerStep, optimStepOn, hcp pertIds j]
  have hphase : ∀ (m : ℕ) (hh : ParamHeap) (j : ℕ),
      pgdPhaseH pertIds signed delta updAtk m hh (ParamId.cls j) = hh (ParamId.cls j) := by
    intro m
    induction m with
    | zero => intro hh j; rfl
    | succ k ih =>
      intro hh j
      rw [pgdPhaseH, ih, hiter]
  refine ⟨fun j => houter updOuter h j, ?_, ?_, fun j => hphase n h j, ?_⟩
  · intro j
    simp [attackOptimizerStep, optimStepOn, hcp pertIds j]
  · intro j
    simp [signUpdateStep, hcp pertIds j]
  · intro j
    exact houter updOuter (pgdPhaseH pertIds signed delta updAtk n h) j

/-- Auxiliary: store extension is reflexive. -/
theorem TensorStore.extends_rfl (s : TensorStore τ) : s.Extends s :=
  ⟨[], (List.append_nil s.mem).symm⟩

/-- Auxiliary: store extension is transitive. -/
theorem TensorStore.Extends.trans {s1 s2 s3 : TensorStore τ}
    (h12 : s1.Extends s2) (h23 : s2.Extends s3) : s1.Extends s3 := by
  obtain ⟨t, ht⟩ := h12
  obtain ⟨u, hu⟩ := h23
  exact ⟨t ++ u, by rw [hu, ht, List.append_assoc]⟩

/-- Auxiliary: allocation only appends. -/
theorem TensorStore.alloc_extends (s : TensorStore τ) (v : τ) :
    s.Extends (s.alloc v).1 :=
  ⟨[v], rfl⟩

/-- Auxiliary: a pre-existing cell reads the same through any extension. -/
theorem TensorStore.Extends.read_eq {s s' : TensorStore τ} (h : s.Extends s')
    {i : ℕ} (hi : i < s.mem.length) : s'.read i = s.read i := by
  obtain ⟨t, ht⟩ := h
  simp [TensorStore.read, ht, List.getElem?_append_left hi]

/-- Auxiliary: extension never shrinks the store. -/
theorem TensorStore.Extends.length_le {s s' : TensorStore τ}
    (h : s.Extends s') : s.mem.length ≤ s'.mem.length := by
  obtain ⟨t, ht⟩ := h
  simp [ht]

/-- Auxiliary: the store-level attack wrapper only allocates. -/
theorem attackStore_extends (ps : AdversarialAttackParameters ι κ)
    (s : TensorStore (TVal ι κ)) (inputsId labelsId : ℕ)
    (drawnFor : ℕ → ℕ → List ℕ) :
    s.Extends (attackStore ps s inputsId labelsId drawnFor).1 := by
  unfold attackStore
  split
  · dsimp only
    split
    · exact TensorStore.alloc_extends s _
    · exact ((((TensorStore.alloc_extends s _).trans
        (TensorStore.alloc_extends _ _)).trans
        (TensorStore.alloc_extends _ _)).trans
        (TensorStore.alloc_extends _ _))
  · exact TensorStore.extends_rfl s

/-- Auxiliary: the store-level attack subroutine only allocates. -/
theorem attackSubroutineStore_extends (ap : Option (AdversarialAttackParameters ι κ))
    (s : TensorStore (TVal ι κ)) (inputsId labelsId : ℕ)
    (drawnFor : ℕ → ℕ → List ℕ) :
    s.Extends (attackSubroutineStore ap s inputsId labelsId drawnFor).1 := by
  unfold attackSubroutineStore
  cases ap with
  | none => exact TensorStore.extends_rfl s
  | some ps =>
    have hatk := attackStore_extends ps s inputsId labelsId drawnFor
    dsimp only
    split
    · exact hatk
    · split
      · exact (hatk.trans (TensorStore.alloc_extends _ _)).trans
          (TensorStore.alloc_extends _ _)
      · exact hatk

/-- Claim C10: the wrapper's attack operation and the training loop's attack
subroutine leave every pre-existing tensor — in particular the caller's input
batch and label tensors — unchanged: the attacked subset is gathered by
index_select into fresh tensors and the augmented batch is produced by
torch.cat into new tensors, so every cell of the incoming store reads back
identically, and the tensor ids the subroutine returns for the augmented batch
are freshly allocated (at or beyond the old store size). -/
theorem attack_frame_preservation (ps : AdversarialAttackParameters ι κ)
    (ap : Option (AdversarialAttackParameters ι κ)) (s : TensorStore (TVal ι κ))
    (inputsId labelsId : ℕ) (drawnFor : ℕ → ℕ → List ℕ) :
    (∀ i, i < s.mem.length →
      (attackStore ps s inputsId labelsId drawnFor).1.read i = s.read i)
    ∧ (∀ i, i < s.mem.length →
      (attackSubroutineStore ap s inputsId labelsId drawnFor).1.read i = s.read i)
    ∧ (∀ q cid lid,
        (attackSubroutineStore (some q) s inputsId labelsId drawnFor).2 = some (cid, lid)
        → s.mem.length ≤ cid ∧ s.mem.length ≤ lid) := by
  refine ⟨fun i hi => (attackStore_extends ps s inputsId labelsId drawnFor).read_eq hi,
    fun i hi => (attackSubroutineStore_extends ap s inputsId labelsId drawnFor).read_eq hi,
    ?_⟩
  intro q cid lid hres
  have hatk := attackStore_extends q s inputsId labelsId drawnFor
  have hlen := hatk.length_le
  unfold attackSubroutineStore at hres
  dsimp only at hres
  split at hres
  · exact absurd hres (by simp)
  · split at hres
    · simp only [Option.some.injEq, Prod.mk.injEq] at hres
      obtain ⟨hc, hl⟩ := hres
      constructor
      · rw [← hc]
        exact hlen
      · rw [← hl]
        simpa [TensorStore.alloc] using Nat.le_succ_of_le hlen
    · exact absurd hres (by simp)

/-- Witness for attack_frame_preservation: on the concrete two-cell store the
subroutine with the half-proportion wrapper leaves cell 0 — the clean image
batch — reading back unchanged. -/
theorem attack_frame_preservation_witness :
    0 < witnessStore.mem.length
    ∧ (attackSubroutineStore (some halfParams) witnessStore 0 1 firstKDraw).1.read 0
        = witnessStore.read 0 := by
  refine ⟨by decide, ?_⟩
  exact (attack_frame_preservation halfParams (some halfParams) witnessStore 0 1
    firstKDraw).2.1 0 (by decide)

end MisterEd
